import Mathlib

/-!
Shallow embedding of the AI-Monitor polling scheduler and classification
pipeline (`sources/tikhub_twitter.py`, `notifiers/telegram.py`, `storage.py`,
`main.py`), together with theorems settling the specification claims about
the adaptive per-account scheduler, the incremental time-window filter, the
staged importance/noise classifier, the decision audit records, the notifier
fallback, and the dedup storage error handling.

Modelling conventions:
* Timestamps are `Int` seconds on the Beijing local clock, with the epoch
  aligned to a local midnight, so the hour of day is `(t / 3600) % 24`
  (mirroring Python's `datetime.hour`).
* Python's substring test `kw in text` is `strContains`; `str.lower()` is
  `lowerStr`; `str.strip()` is `trimStr`; slicing `text[:n]` is `takeStr`.
* The external `strptime`-based timestamp parser is abstracted as a
  parameter `pd : String → Option Int` (the code's `_parse_tweet_datetime`
  returns a datetime or `None`); every claim here is insensitive to the
  parser's internals, only to its `Option` result.
* The HTTP fetch `_fetch_user_tweets` returns `{}` on any exception, which
  is the `RawData` value with no pinned tweet and an empty timeline.
-/

namespace AIMonitor

/-- Boolean test that `pat` occurs as a contiguous sublist of the second
argument; embeds Python's substring operator `pat in hay`. -/
def subLs : List Char → List Char → Bool
  | pat, [] => pat.isEmpty
  | pat, c :: rest => pat.isPrefixOf (c :: rest) || subLs pat rest

/-- Substring test on strings: `strContains hay pat` embeds Python's
`pat in hay`. -/
def strContains (hay pat : String) : Bool :=
  subLs pat.data hay.data

/-- Character-wise lower-casing, embedding Python's `str.lower()` on the
ASCII/CJK texts this program handles. -/
def lowerStr (s : String) : String := ⟨s.data.map Char.toLower⟩

/-- Whitespace trimming on both ends, embedding Python's `str.strip()`. -/
def trimStr (s : String) : String :=
  ⟨((s.data.dropWhile Char.isWhitespace).reverse.dropWhile Char.isWhitespace).reverse⟩

/-- Code-point prefix, embedding Python's slice `s[:n]`. -/
def takeStr (s : String) (n : Nat) : String := ⟨s.data.take n⟩

/-- Timestamps: seconds on the Beijing local clock (epoch at a local
midnight). -/
abbrev Timestamp := Int

/-- Hour of day of a timestamp, embedding `datetime.hour` under the epoch
convention above. -/
def hourOf (t : Timestamp) : Int := (t / 3600) % 24

/-- Embeds `TikHubTwitterSource._is_night_window`: 21:00-03:00 Beijing
time, i.e. `hour >= 21 or hour < 3`. -/
def isNightWindow (t : Timestamp) : Bool :=
  if 21 ≤ hourOf t then true else if hourOf t < 3 then true else false

/-- Account tier as configured; invalid tiers are coerced to `A` at
construction time, so only these three values occur. -/
inductive Tier
  | S
  | A
  | B
deriving DecidableEq, Repr

/-- Embeds `_day_base_minutes`: tier B starts at 60 minutes by day, the
others at 30. -/
def dayBaseMinutes : Tier → Int
  | .B => 60
  | _ => 30

/-- Embeds `_next_interval_minutes`: night is a flat 15 minutes; by day the
base-60 tier ladders 60→90 on the empty streak and the base-30 tiers ladder
30→60→90. -/
def nextIntervalMinutes (tier : Tier) (noNewsStreak : Int) (now : Timestamp) : Int :=
  if isNightWindow now then 15
  else if dayBaseMinutes tier = 60 then
    if noNewsStreak ≤ 0 then 60 else 90
  else if noNewsStreak ≤ 0 then 30
  else if noNewsStreak = 1 then 60
  else 90

/-- Per-account mutable scheduling state, embedding the
`account_states[screen_name.lower()]` dictionary
(`tier`/`last_check_time`/`last_polled_at`/`no_news_streak`/`next_due_at`).
The two `Option` fields embed the `None`/falsy checks the code performs on
`last_polled_at` and `next_due_at`. -/
structure AccountState where
  tier : Tier
  last_check_time : Timestamp
  last_polled_at : Option Timestamp
  no_news_streak : Int
  next_due_at : Option Timestamp
deriving DecidableEq, Repr

/-- Embeds `_should_poll_account`: at night an account is due iff it was
never polled or 15 minutes have elapsed since `last_polled_at` (the stored
`next_due_at` is ignored); by day it is due iff `now >= next_due_at`
(a missing `next_due_at` counts as due). -/
def shouldPollAccount (st : AccountState) (now : Timestamp) : Bool :=
  if isNightWindow now then
    match st.last_polled_at with
    | none => true
    | some lp => decide (15 * 60 ≤ now - lp)
  else
    match st.next_due_at with
    | none => true
    | some nd => decide (nd ≤ now)

/-- Embeds `_advance_account_schedule`: reset the empty streak on news,
otherwise bump it capped at 6; stamp `last_polled_at`; set `next_due_at`
to `now` plus the ladder interval (converted to seconds). -/
def advanceAccountSchedule (st : AccountState) (hasNews : Bool) (now : Timestamp) : AccountState :=
  let streak : Int := if hasNews then 0 else min (st.no_news_streak + 1) 6
  { st with
    no_news_streak := streak
    last_polled_at := some now
    next_due_at := some (now + nextIntervalMinutes st.tier streak now * 60) }

/-- Deny-list of the AI快讯 attention filter in
`_detect_importance_with_rule`. -/
def filterKeywords : List String :=
  ["perplexity", "kane ai", "keep", "raycast", "alfred",
   "linear", "notion", "obsidian", "cursor"]

/-- Allow-list of the AI快讯 attention filter (big-vendor mentions). -/
def importantKeywords : List String :=
  ["openai", "anthropic", "google", "meta", "microsoft", "apple", "amazon",
   "deepseek", "mistral", "llama", "claude", "gpt", "gemini",
   "chatgpt", "copilot", "cursor", "windsurf"]

/-- Launch/release/version/feature keywords of
`_detect_importance_with_rule`, scanned first and yielding label `major`. -/
def majorKeywords : List String :=
  ["release", "launch", "new model", "new api", "new mode", "new feature",
   "announce", "introduce", "introducing", "debut",
   "gpt-", "claude-", "gemini", "codex", "operator",
   "version 2", "version 3", "version 4", "version 5",
   "veo", "sora", "gemini 2", "claude 4", "gpt-5",
   "meet ", "meet+"]

/-- Generic update/improvement keywords of `_detect_importance_with_rule`,
scanned second and yielding label `minor`. -/
def minorKeywords : List String :=
  ["update", "fix", "bug", "optimize", "improve", "patch",
   "now support", "add ", "enhance",
   "demo", "showcase", "example", "walkthrough", "how to",
   "new capability", "improvement", "new feature",
   "introducing", "announcing", "available"]

/-- Embeds `TikHubTwitterSource._detect_importance_with_rule`: the
AI快讯 attention filter first (deny-list hit or allow-list miss yields
`filter`), then the major keywords, then the minor keywords, each returning
the first matching keyword as the matched rule; no match yields
`("normal", "")`. -/
def detectImportanceWithRule (text vendor : String) : String × String :=
  let textLower := lowerStr text
  let attention : Option (String × String) :=
    if vendor = "AI快讯" then
      match filterKeywords.find? (fun kw => strContains textLower kw) with
      | some kw => some ("filter", kw)
      | none =>
        if importantKeywords.any (fun kw => strContains textLower kw) then none
        else some ("filter", "AI快讯_非大厂")
    else none
  match attention with
  | some r => r
  | none =>
    match majorKeywords.find? (fun kw => strContains textLower kw) with
    | some kw => ("major", kw)
    | none =>
      match minorKeywords.find? (fun kw => strContains textLower kw) with
      | some kw => ("minor", kw)
      | none => ("normal", "")

/-- Acquisition/merger keywords of `TelegramNotifier._detect_importance`. -/
def tgAcquisitionKeywords : List String :=
  ["acqui", "acquisition", "acquire", "merge", "merger", "收购", "并购", "合并",
   "acquired", "acquires", "acquired by"]

/-- Major keywords of `TelegramNotifier._detect_importance`. -/
def tgMajorKeywords : List String :=
  ["new", "release", "launch", "debut", "introduce", "announce",
   "新", "发布", "推出", "上线", "首发", "重大",
   "gpt-5", "gpt4", "claude-4", "opus", "sonnet",
   "gemini", "llama", "deepseek", "qwen", "minimax",
   "model", "api", "version", "v2", "v3", "v4", "v5",
   "feature", "plugin", "mode", "extend", "support",
   "cowork", "codex", "app", "agent", "tool"]

/-- Normal-update keywords of `TelegramNotifier._detect_importance`. -/
def tgNormalKeywords : List String :=
  ["fix", "patch", "bug", "hotfix", "maintenance",
   "update", "修复", "补丁", "维护"]

/-- Embeds `TelegramNotifier._detect_importance` on the combined
`f"{title} {summary}".strip().lower()` text: acquisition terms yield
`minor`, then major terms yield `major`, then normal terms yield `normal`,
default `normal`. It returns only the label — no matched rule. -/
def telegramDetectImportance (title summary : String) : String :=
  let text := lowerStr (trimStr (title ++ " " ++ summary))
  if tgAcquisitionKeywords.any (fun kw => strContains text kw) then "minor"
  else if tgMajorKeywords.any (fun kw => strContains text kw) then "major"
  else if tgNormalKeywords.any (fun kw => strContains text kw) then "normal"
  else "normal"

/-- Embeds `_is_in_window`: a missing (unparsable) tweet time is never in
window; otherwise the chained comparison `last_check_time < t <= now`. -/
def isInWindow (tweetTime : Option Timestamp) (lastCheckTime now : Timestamp) : Bool :=
  match tweetTime with
  | none => false
  | some t => decide (lastCheckTime < t) && decide (t ≤ now)

/-- One tweet dictionary as consumed by the pipeline: the `tweet_id`,
`created_at` and `text` fields the code reads (with their `get` defaults
already applied). -/
structure Tweet where
  tweet_id : String
  created_at : String
  text : String
deriving DecidableEq, Repr

/-- One structured audit record as emitted through `DecisionLogger.log`,
restricted to the fields the claims are about (the poll/run/account/tier
correlation fields are constant over one account poll). -/
structure DecisionRecord where
  tweet_id : String
  stage : String
  decision : String
  reason_code : String
  matched_rule : String
deriving DecidableEq, Repr

/-- Payload of a successful `_fetch_user_tweets` call: the optional pinned
tweet and the timeline list. A failed fetch returns `{}`, i.e.
`⟨none, []⟩`. -/
structure RawData where
  pinned : Option Tweet
  timeline : List Tweet
deriving DecidableEq, Repr

/-- Candidate list assembled at the top of `_extract_tweets`: the pinned
tweet (when present and non-empty) followed by the timeline entries. -/
def candidateTweets (raw : RawData) : List Tweet :=
  (match raw.pinned with
   | some p => [p]
   | none => []) ++ raw.timeline

/-- Audit records `_extract_tweets` emits for one candidate: one `raw`
pass record, then one `window` record — pass when in window, otherwise a
drop carrying the raw `created_at` string as the matched rule. -/
def windowRecordsFor (pd : String → Option Timestamp) (lastCheck now : Timestamp)
    (t : Tweet) : List DecisionRecord :=
  if isInWindow (pd t.created_at) lastCheck now then
    [⟨t.tweet_id, "raw", "pass", "RAW_FETCHED", ""⟩,
     ⟨t.tweet_id, "window", "pass", "WINDOW_IN_RANGE", ""⟩]
  else
    [⟨t.tweet_id, "raw", "pass", "RAW_FETCHED", ""⟩,
     ⟨t.tweet_id, "window", "drop", "WINDOW_OLD", t.created_at⟩]

/-- In-window survivors of `_extract_tweets` (its returned `filtered`
list). -/
def windowFiltered (pd : String → Option Timestamp) (raw : RawData)
    (lastCheck now : Timestamp) : List Tweet :=
  (candidateTweets raw).filter (fun t => isInWindow (pd t.created_at) lastCheck now)

/-- All audit records emitted by `_extract_tweets` over the candidate
list, in emission order. -/
def windowRecords (pd : String → Option Timestamp) (raw : RawData)
    (lastCheck now : Timestamp) : List DecisionRecord :=
  ((candidateTweets raw).map (windowRecordsFor pd lastCheck now)).flatten

/-- Noise deny-list scanned in the `fetch` loop after importance. -/
def noiseKeywords : List String :=
  ["hiring", "job ", "event", "meetup", "podcast", "welcoming"]

/-- Output item as materialized at the end of the `fetch` loop (the
`NewsItem` plus the dynamically attached attributes the caller reads). -/
structure NewsItem where
  source : String
  title : String
  url : String
  summary : String
  vendor : String
  importance : String
  account : String
  tweet_id : String
  tier : Tier
  selected_reason : String
deriving DecidableEq, Repr

/-- Embeds the per-tweet body of the `fetch` loop (after window
filtering): skip empty text with no record; drop `filter` with
`IMPORTANCE_FILTER`; drop `normal` with `IMPORTANCE_NORMAL`; otherwise an
`IMPORTANCE_PASS` record, then the noise scan (`NOISE_KEYWORD` drop or
`NOISE_PASS` and a materialized item whose importance is downgraded to
`minor` unless the label was `major`). Returns the emitted records and
the optional output item. -/
def processWindowedTweet (screenName vendor : String) (tier : Tier)
    (t : Tweet) : List DecisionRecord × Option NewsItem :=
  if t.text = "" then ([], none)
  else
    let (importance, importanceRule) := detectImportanceWithRule t.text vendor
    if importance = "filter" then
      ([⟨t.tweet_id, "importance", "drop", "IMPORTANCE_FILTER", importanceRule⟩], none)
    else if importance = "normal" ∨ importance = "filter" then
      ([⟨t.tweet_id, "importance", "drop", "IMPORTANCE_NORMAL", ""⟩], none)
    else
      let impRec : DecisionRecord :=
        ⟨t.tweet_id, "importance", "pass", "IMPORTANCE_PASS", importanceRule⟩
      let textLower := lowerStr t.text
      let hitNoise := (noiseKeywords.find? (fun kw => strContains textLower kw)).getD ""
      if hitNoise ≠ "" then
        ([impRec, ⟨t.tweet_id, "noise", "drop", "NOISE_KEYWORD", hitNoise⟩], none)
      else
        let item : NewsItem :=
          { source := "Twitter:" ++ screenName
            title := if 80 < t.text.data.length then takeStr t.text 80 ++ "..." else t.text
            url := "https://x.com/" ++ screenName ++ "/status/" ++ t.tweet_id
            summary := takeStr t.text 400
            vendor := vendor
            importance := if importance = "filter" ∨ importance = "normal" then "minor" else importance
            account := screenName
            tweet_id := t.tweet_id
            tier := tier
            selected_reason := "importance:" ++ (if importanceRule = "" then "n/a" else importanceRule) }
        ([impRec, ⟨t.tweet_id, "noise", "pass", "NOISE_PASS", ""⟩], some item)

/-- Result of polling one account inside `fetch`: the updated scheduling
state, the materialized items, and the audit records emitted. -/
structure PollOutcome where
  state : AccountState
  items : List NewsItem
  records : List DecisionRecord
deriving DecidableEq, Repr

/-- Embeds one account's iteration of `TikHubTwitterSource.fetch`: skip
untouched when not due; otherwise window-filter the fetched data against
`last_check_time`, classify each windowed tweet, then set
`last_check_time := poll start time` unconditionally and advance the
schedule with `has_news := (final output count > 0)`. A failed HTTP fetch
is the `raw = ⟨none, []⟩` case. -/
def pollAccount (pd : String → Option Timestamp) (screenName vendor : String)
    (raw : RawData) (st : AccountState) (now : Timestamp) : PollOutcome :=
  if shouldPollAccount st now = false then ⟨st, [], []⟩
  else
    let results := (windowFiltered pd raw st.last_check_time now).map
      (processWindowedTweet screenName vendor st.tier)
    let items := results.filterMap Prod.snd
    let st1 := { st with last_check_time := now }
    let st2 := advanceAccountSchedule st1 (decide (0 < items.length)) now
    ⟨st2, items, windowRecords pd raw st.last_check_time now ++ (results.map Prod.fst).flatten⟩

/-- Outcome of the SQLite insert attempted by `Storage.save_if_new`: a
successful insert, the uniqueness-constraint violation
(`sqlite3.IntegrityError`), or any other exception raised while writing. -/
inductive InsertOutcome
  | ok
  | integrityError
  | otherError
deriving DecidableEq, Repr

/-- Embeds `Storage.save_if_new`: `True` on a successful insert, `False`
on `IntegrityError` (duplicate content hash) and `False` on any other
exception (which is logged and swallowed); the function is total — it
never propagates an exception to the caller. -/
def saveIfNew : InsertOutcome → Bool
  | .ok => true
  | .integrityError => false
  | .otherError => false

/-- Embeds one item's staging step of `run_once` (`main.py`): items whose
importance is neither `major` nor `minor` are skipped; otherwise
`save_if_new` decides between staging with a `DEDUPE_NEW` pass record and
dropping with a `DEDUPE_HASH` record. The insert outcome for the item is
supplied by the `save` oracle. -/
def stageOne (save : NewsItem → InsertOutcome) (it : NewsItem) :
    Option NewsItem × Option DecisionRecord :=
  if ¬ (it.importance = "major" ∨ it.importance = "minor") then (none, none)
  else if saveIfNew (save it) then
    (some it, some ⟨it.tweet_id, "dedupe", "pass", "DEDUPE_NEW", it.selected_reason⟩)
  else
    (none, some ⟨it.tweet_id, "dedupe", "drop", "DEDUPE_HASH", "content_hash_exists"⟩)

/-- Items staged for notification by the `run_once` loop: exactly those
whose staging step returned an item. -/
def stagedItems (save : NewsItem → InsertOutcome) (items : List NewsItem) : List NewsItem :=
  items.filterMap (fun it => (stageOne save it).1)

/-- Builder for the push-stage audit record of `run_once`: `pass`/`PUSH_OK`
on success, `drop`/`PUSH_FAIL` on failure, with the send mode as the
matched rule. -/
def pushRecord (tid mode : String) (ok : Bool) : DecisionRecord :=
  ⟨tid, "push", if ok then "pass" else "drop",
   if ok then "PUSH_OK" else "PUSH_FAIL", mode⟩

/-- Embeds the daytime push phase of `run_once`: one batch-level record,
then — if the batch send succeeded — a `PUSH_OK` record per item, and — if
it failed — a per-item fallback that sends each staged item individually
(the `sendOne` oracle gives each item's own result), records each result,
and counts the successes. Returns the pushed count and the records. -/
def dayPush (sendBatchOk : Bool) (sendOne : NewsItem → Bool)
    (staged : List NewsItem) : Nat × List DecisionRecord :=
  let batchRec := pushRecord (String.intercalate "," (staged.map (fun it => it.tweet_id)))
    "day_batch" sendBatchOk
  if sendBatchOk then
    (staged.length, batchRec :: staged.map (fun it => pushRecord it.tweet_id "day_batch" true))
  else
    (staged.countP sendOne,
     batchRec :: staged.map (fun it => pushRecord it.tweet_id "day_batch_fallback_single" (sendOne it)))

/-- Helper: `advanceAccountSchedule` never touches `last_check_time`. -/
theorem advance_preserves_last_check (st : AccountState) (b : Bool) (now : Timestamp) :
    (advanceAccountSchedule st b now).last_check_time = st.last_check_time := rfl

/-- C1: on every poll of a due account, `fetch` sets `last_check_time` to
the poll start time unconditionally — for every fetched payload, including
the empty payload a failed HTTP fetch is coerced to — and, given that the
clock has not gone backwards since the previous update, `last_check_time`
never decreases (when the account is not due it is left untouched). -/
theorem last_check_time_monotone (pd : String → Option Timestamp) (sn v : String)
    (raw : RawData) (st : AccountState) (now : Timestamp)
    (hclock : st.last_check_time ≤ now) :
    (shouldPollAccount st now = true →
      (pollAccount pd sn v raw st now).state.last_check_time = now)
    ∧ st.last_check_time ≤ (pollAccount pd sn v raw st now).state.last_check_time
    ∧ (shouldPollAccount st now = true →
      (pollAccount pd sn v ⟨none, []⟩ st now).state.last_check_time = now) := by
  by_cases hdue : shouldPollAccount st now = true
  · refine ⟨fun _ => ?_, ?_, fun _ => ?_⟩
    · simp [pollAccount, hdue, advanceAccountSchedule]
    · simp [pollAccount, hdue, advanceAccountSchedule]
      exact hclock
    · simp [pollAccount, hdue, advanceAccountSchedule]
  · have hfalse : shouldPollAccount st now = false := by
      revert hdue; cases shouldPollAccount st now <;> simp
    simp [pollAccount, hfalse, hdue]

/-- Witness for C1 at a concrete due account and failed fetch. -/
theorem last_check_time_monotone_witness :
    (pollAccount (fun _ => none) "a" "v" ⟨none, []⟩ ⟨Tier.A, 3, none, 0, some 0⟩ 10).state.last_check_time = 10 := by
  exact (last_check_time_monotone (fun _ => none) "a" "v" ⟨none, []⟩
    ⟨Tier.A, 3, none, 0, some 0⟩ 10 (by decide)).1 (by decide)

/-- C2: the window filter keeps an item iff its parsed timestamp `t`
satisfies `lastCheck < t ≤ now`; a missing/unparsable timestamp is never
in window (and `isInWindow` is a total function — no error path); the
timestamp equal to the lower bound is excluded, the one equal to `now`
is included. -/
theorem window_filter_iff (tt : Option Timestamp) (lc now : Timestamp) :
    (isInWindow tt lc now = true ↔ ∃ t, tt = some t ∧ lc < t ∧ t ≤ now)
    ∧ isInWindow none lc now = false
    ∧ isInWindow (some lc) lc now = false
    ∧ (lc < now → isInWindow (some now) lc now = true) := by
  refine ⟨?_, rfl, ?_, fun h => ?_⟩
  · cases tt with
    | none => simp [isInWindow]
    | some t => simp [isInWindow]
  · simp [isInWindow]
  · simp [isInWindow, h, le_refl]

/-- Witness for C2 at concrete boundary inputs. -/
theorem window_filter_iff_witness :
    isInWindow (some 10) 0 10 = true
    ∧ isInWindow (some 0) 0 10 = false
    ∧ isInWindow none 0 10 = false := by
  exact ⟨(window_filter_iff (some 10) 0 10).2.2.2 (by decide),
    (window_filter_iff (some 0) 0 10).2.2.1,
    (window_filter_iff none 0 10).2.1⟩

/-- C3: the interval policy returns 15 in the night window regardless of
tier and streak; by day, tier B ladders 60/90 on the empty streak and
tiers S/A ladder 30/60/90; the result is always one of the fixed ladder
values. -/
theorem next_interval_ladder (tier : Tier) (streak : Int) (now : Timestamp)
    (hstreak : 0 ≤ streak) :
    (isNightWindow now = true → nextIntervalMinutes tier streak now = 15)
    ∧ (isNightWindow now = false → tier = Tier.B →
        (streak ≤ 0 → nextIntervalMinutes tier streak now = 60)
        ∧ (1 ≤ streak → nextIntervalMinutes tier streak now = 90))
    ∧ (isNightWindow now = false → (tier = Tier.S ∨ tier = Tier.A) →
        (streak ≤ 0 → nextIntervalMinutes tier streak now = 30)
        ∧ (streak = 1 → nextIntervalMinutes tier streak now = 60)
        ∧ (2 ≤ streak → nextIntervalMinutes tier streak now = 90))
    ∧ nextIntervalMinutes tier streak now ∈ ([15, 30, 60, 90] : List Int) := by
  refine ⟨fun hn => by simp [nextIntervalMinutes, hn], ?_, ?_, ?_⟩
  · rintro hn rfl
    refine ⟨fun hs => ?_, fun hs => ?_⟩
    · simp [nextIntervalMinutes, hn, dayBaseMinutes, hs]
    · have hns : ¬ streak ≤ 0 := by omega
      simp [nextIntervalMinutes, hn, dayBaseMinutes, hns]
  · rintro hn (rfl | rfl) <;>
      refine ⟨fun hs => ?_, fun hs => ?_, fun hs => ?_⟩ <;>
      simp [nextIntervalMinutes, hn, dayBaseMinutes] <;> omega
  · unfold nextIntervalMinutes
    split_ifs <;> decide

/-- Witness for C3 at a concrete daytime S-tier state. -/
theorem next_interval_ladder_witness :
    nextIntervalMinutes Tier.S 0 (12 * 3600) = 30 := by
  exact ((next_interval_ladder Tier.S 0 (12 * 3600) (by decide)).2.2.1
    (by decide) (Or.inl rfl)).1 (by decide)

/-- C4: after the schedule advance of a polled account whose streak was
non-negative, the empty streak is exactly 0 when at least one item
survived acceptance and `min(previous + 1, 6)` otherwise, and it always
lies in `[0, 6]`. -/
theorem empty_streak_bounds (pd : String → Option Timestamp) (sn v : String)
    (raw : RawData) (st : AccountState) (now : Timestamp)
    (h0 : 0 ≤ st.no_news_streak) (hdue : shouldPollAccount st now = true) :
    (pollAccount pd sn v raw st now).state.no_news_streak
      = (if 0 < (pollAccount pd sn v raw st now).items.length then 0
         else min (st.no_news_streak + 1) 6)
    ∧ 0 ≤ (pollAccount pd sn v raw st now).state.no_news_streak
    ∧ (pollAccount pd sn v raw st now).state.no_news_streak ≤ 6 := by
  simp [pollAccount, hdue, advanceAccountSchedule]
  constructor <;> split <;> omega

/-- Witness for C4 at a concrete due account with no surviving items. -/
theorem empty_streak_bounds_witness :
    (pollAccount (fun _ => none) "a" "v" ⟨none, []⟩ ⟨Tier.A, 3, none, 2, some 0⟩ 10).state.no_news_streak = 3 := by
  have h := empty_streak_bounds (fun _ => none) "a" "v" ⟨none, []⟩
    ⟨Tier.A, 3, none, 2, some 0⟩ 10 (by decide) (by decide)
  rw [h.1]
  decide

/-- C5: the due-set selector polls at night iff the account was never
polled or 15 minutes have elapsed since `last_polled_at` — ignoring any
stored `next_due_at` — and by day iff `now ≥ next_due_at`; an account that
is not due is skipped with no state mutation (and no items or records). -/
theorem due_set_selector (pd : String → Option Timestamp) (sn v : String)
    (raw : RawData) (st : AccountState) (now : Timestamp) :
    (isNightWindow now = true →
      (shouldPollAccount st now = true ↔
        st.last_polled_at = none ∨ ∃ lp, st.last_polled_at = some lp ∧ 15 * 60 ≤ now - lp))
    ∧ (isNightWindow now = true → ∀ x,
        shouldPollAccount { st with next_due_at := x } now = shouldPollAccount st now)
    ∧ (isNightWindow now = false → ∀ nd, st.next_due_at = some nd →
        (shouldPollAccount st now = true ↔ nd ≤ now))
    ∧ (shouldPollAccount st now = false →
        pollAccount pd sn v raw st now = ⟨st, [], []⟩) := by
  refine ⟨fun hn => ?_, fun hn x => ?_, fun hn nd hnd => ?_, fun hnot => ?_⟩
  · cases hlp : st.last_polled_at with
    | none => simp [shouldPollAccount, hn, hlp]
    | some lp => simp [shouldPollAccount, hn, hlp]
  · cases hlp : st.last_polled_at with
    | none => simp [shouldPollAccount, hn, hlp]
    | some lp => simp [shouldPollAccount, hn, hlp]
  · simp [shouldPollAccount, hn, hnd]
  · simp [pollAccount, hnot]

/-- Witness for C5: at night an overdue-by-`next_due_at` account is still
polled on the 15-minute cadence, and a day account ahead of its due time
is skipped unchanged. -/
theorem due_set_selector_witness :
    shouldPollAccount ⟨Tier.A, 0, some 0, 0, some (50 * 3600)⟩ (22 * 3600) = true
    ∧ pollAccount (fun _ => none) "a" "v" ⟨none, []⟩
        ⟨Tier.A, 0, some 0, 0, some (10 * 3600)⟩ (4 * 3600)
      = ⟨⟨Tier.A, 0, some 0, 0, some (10 * 3600)⟩, [], []⟩ := by
  constructor
  · exact ((due_set_selector (fun _ => none) "a" "v" ⟨none, []⟩
      ⟨Tier.A, 0, some 0, 0, some (50 * 3600)⟩ (22 * 3600)).1 (by decide)).2
      (Or.inr ⟨0, rfl, by decide⟩)
  · exact (due_set_selector (fun _ => none) "a" "v" ⟨none, []⟩
      ⟨Tier.A, 0, some 0, 0, some (10 * 3600)⟩ (4 * 3600)).2.2.2 (by decide)

/-- Helper: the only labels `_detect_importance_with_rule` returns are
`filter`, `major`, `minor` and `normal`. -/
theorem detect_label_cases (text vendor : String) :
    (detectImportanceWithRule text vendor).1 = "filter"
    ∨ (detectImportanceWithRule text vendor).1 = "major"
    ∨ (detectImportanceWithRule text vendor).1 = "minor"
    ∨ (detectImportanceWithRule text vendor).1 = "normal" := by
  unfold detectImportanceWithRule
  rcases hf : filterKeywords.find? (fun kw => strContains (lowerStr text) kw) with _ | kw1 <;>
  rcases hM : majorKeywords.find? (fun kw => strContains (lowerStr text) kw) with _ | kw2 <;>
  rcases hm : minorKeywords.find? (fun kw => strContains (lowerStr text) kw) with _ | kw3 <;>
  by_cases hv : vendor = "AI快讯" <;>
  by_cases hi : (importantKeywords.any (fun kw => strContains (lowerStr text) kw)) = true <;>
  simp [hf, hM, hm, hv, hi]

/-- Counterexample to C6 as stated: in the Importance stage that records
`matchedRule` (`_detect_importance_with_rule`), a text hit only by the
generic update terms is labelled `minor` — not `normal` — and a text hit
only by acquisition terms is labelled `normal` — there is no
acquisition-first scan there (the acquisition→`minor` scan lives only in
`TelegramNotifier._detect_importance`, which records no matched rule, as
the third conjunct shows on the same text). -/
theorem importance_order_counterexample :
    detectImportanceWithRule "update" "" = ("minor", "update")
    ∧ detectImportanceWithRule "acquires the startup" "" = ("normal", "")
    ∧ telegramDetectImportance "acquires the startup" "" = "minor" := by
  exact ⟨by decide, by decide, by decide⟩

/-- C6 (amended): in the Importance stage that records `matchedRule`, for
an item not handled by the entity-specific attention filter the text is
scanned first against the launch/release/version/feature terms, yielding
`major`, then against the generic update terms, yielding `minor`; a text
matching neither is labelled `normal` with no rule recorded; the first
matching keyword wins and is the recorded `matchedRule`. -/
theorem importance_scan_order (text vendor : String) (hv : vendor ≠ "AI快讯") :
    ((detectImportanceWithRule text vendor).1 = "major" ↔
      ∃ kw ∈ majorKeywords, strContains (lowerStr text) kw = true)
    ∧ ((detectImportanceWithRule text vendor).1 = "minor" ↔
      (∀ kw ∈ majorKeywords, strContains (lowerStr text) kw = false)
      ∧ ∃ kw ∈ minorKeywords, strContains (lowerStr text) kw = true)
    ∧ ((detectImportanceWithRule text vendor).1 = "normal" ↔
      ∀ kw ∈ majorKeywords ++ minorKeywords, strContains (lowerStr text) kw = false)
    ∧ (∀ lbl kw, detectImportanceWithRule text vendor = (lbl, kw) →
        lbl = "major" ∨ lbl = "minor" →
        strContains (lowerStr text) kw = true ∧ kw ∈ majorKeywords ++ minorKeywords) := by
  have hval : detectImportanceWithRule text vendor =
      (match majorKeywords.find? (fun kw => strContains (lowerStr text) kw) with
       | some kw => ("major", kw)
       | none =>
         match minorKeywords.find? (fun kw => strContains (lowerStr text) kw) with
         | some kw => ("minor", kw)
         | none => ("normal", "")) := by
    unfold detectImportanceWithRule
    simp [hv]
  rcases hM : majorKeywords.find? (fun kw => strContains (lowerStr text) kw) with _ | kw2
  · have hnomaj : ∀ kw ∈ majorKeywords, strContains (lowerStr text) kw = false := by
      intro kw hkw
      simpa using List.find?_eq_none.mp hM kw hkw
    rcases hm : minorKeywords.find? (fun kw => strContains (lowerStr text) kw) with _ | kw3
    · have hnomin : ∀ kw ∈ minorKeywords, strContains (lowerStr text) kw = false := by
        intro kw hkw
        simpa using List.find?_eq_none.mp hm kw hkw
      rw [hval, hM, hm]
      refine ⟨?_, ?_, ?_, ?_⟩
      · simp only [String.reduceEq, false_iff]
        rintro ⟨kw, hkw, hc⟩
        rw [hnomaj kw hkw] at hc
        exact Bool.false_ne_true hc
      · simp only [String.reduceEq, false_iff]
        rintro ⟨-, kw, hkw, hc⟩
        rw [hnomin kw hkw] at hc
        exact Bool.false_ne_true hc
      · simp only [String.reduceEq, true_iff]
        intro kw hkw
        rcases List.mem_append.mp hkw with h | h
        · exact hnomaj kw h
        · exact hnomin kw h
      · rintro lbl kw h hor
        injection h with h1 h2
        subst h1
        rcases hor with h | h <;> exact absurd h (by decide)
    · have hp3 := List.find?_some hm
      have hmem3 := List.mem_of_find?_eq_some hm
      rw [hval, hM, hm]
      refine ⟨?_, ?_, ?_, ?_⟩
      · simp only [String.reduceEq, false_iff]
        rintro ⟨kw, hkw, hc⟩
        rw [hnomaj kw hkw] at hc
        exact Bool.false_ne_true hc
      · simp only [String.reduceEq, true_iff]
        exact ⟨hnomaj, kw3, hmem3, hp3⟩
      · simp only [String.reduceEq, false_iff]
        intro hall
        rw [hall kw3 (List.mem_append.mpr (Or.inr hmem3))] at hp3
        exact Bool.false_ne_true hp3
      · rintro lbl kw h hor
        injection h with h1 h2
        subst h1
        subst h2
        exact ⟨hp3, List.mem_append.mpr (Or.inr hmem3)⟩
  · have hp2 := List.find?_some hM
    have hmem2 := List.mem_of_find?_eq_some hM
    rw [hval, hM]
    refine ⟨?_, ?_, ?_, ?_⟩
    · simp only [String.reduceEq, true_iff]
      exact ⟨kw2, hmem2, hp2⟩
    · simp only [String.reduceEq, false_iff]
      rintro ⟨hall, -⟩
      rw [hall kw2 hmem2] at hp2
      exact Bool.false_ne_true hp2
    · simp only [String.reduceEq, false_iff]
      intro hall
      rw [hall kw2 (List.mem_append.mpr (Or.inl hmem2))] at hp2
      exact Bool.false_ne_true hp2
    · rintro lbl kw h hor
      injection h with h1 h2
      subst h1
      subst h2
      exact ⟨hp2, List.mem_append.mpr (Or.inl hmem2)⟩

/-- Witness for C6 (amended) at a concrete launch text and neutral
vendor. -/
theorem importance_scan_order_witness :
    ("" : String) ≠ "AI快讯"
    ∧ ((detectImportanceWithRule "launch" "").1 = "major" ↔
        ∃ kw ∈ majorKeywords, strContains (lowerStr "launch") kw = true) := by
  exact ⟨by decide, (importance_scan_order "launch" "" (by decide)).1⟩

/-- C7: in the per-tweet pipeline only labels `major`/`minor` pass the
Importance stage — `filter` drops with reason `IMPORTANCE_FILTER` (and the
matched rule), `normal` drops with the distinct reason
`IMPORTANCE_NORMAL` — and every materialized output item carries
importance `major` or `minor` only, with any upstream label other than
`major` downgraded to `minor` at acceptance. -/
theorem importance_gate (sn v : String) (tier : Tier) (t : Tweet) (htext : t.text ≠ "") :
    ((detectImportanceWithRule t.text v).1 = "filter" →
      processWindowedTweet sn v tier t =
        ([⟨t.tweet_id, "importance", "drop", "IMPORTANCE_FILTER",
           (detectImportanceWithRule t.text v).2⟩], none))
    ∧ ((detectImportanceWithRule t.text v).1 = "normal" →
      processWindowedTweet sn v tier t =
        ([⟨t.tweet_id, "importance", "drop", "IMPORTANCE_NORMAL", ""⟩], none))
    ∧ (∀ item, (processWindowedTweet sn v tier t).2 = some item →
        item.importance =
          (if (detectImportanceWithRule t.text v).1 = "major" then "major" else "minor"))
    ∧ (∀ item, (processWindowedTweet sn v tier t).2 = some item →
        item.importance = "major" ∨ item.importance = "minor")
    ∧ ((processWindowedTweet sn v tier t).2.isSome = true →
        (detectImportanceWithRule t.text v).1 = "major"
        ∨ (detectImportanceWithRule t.text v).1 = "minor") := by
  have hcases := detect_label_cases t.text v
  rcases hd : detectImportanceWithRule t.text v with ⟨imp, rule⟩
  rw [hd] at hcases
  simp only at hcases
  unfold processWindowedTweet
  rw [if_neg htext, hd]
  simp only
  rcases hcases with h | h | h | h <;> subst h
  · simp
  · simp only [String.reduceEq, false_or, or_false, if_false, reduceIte]
    split
    · simp
    · simp
  · simp only [String.reduceEq, false_or, or_false, if_false, reduceIte]
    split
    · simp
    · simp
  · simp

/-- Witness for C7 at a concrete launch tweet. -/
theorem importance_gate_witness :
    ((processWindowedTweet "sn" "v" Tier.A ⟨"7", "c", "Big launch today"⟩).2.map
      (fun i => i.importance)) = some "major" := by
  have h := importance_gate "sn" "v" Tier.A ⟨"7", "c", "Big launch today"⟩ (by decide)
  rcases ho : (processWindowedTweet "sn" "v" Tier.A ⟨"7", "c", "Big launch today"⟩).2 with _ | item
  · exact absurd ho (by decide)
  · have himp := h.2.2.1 item ho
    simp only [Option.map_some', himp]
    decide

/-- Counterexample to C8 as stated: an in-window candidate whose `text`
is empty is dropped silently — the poll emits its `raw` and `window` pass
records but no importance/noise record at all, and the item is not in the
output either, so a later stage transition happened with no
DecisionRecord. -/
theorem decision_audit_counterexample :
    (pollAccount (fun _ => some 5) "a" "v" ⟨none, [⟨"1", "c", ""⟩]⟩
        ⟨Tier.A, 0, none, 0, some 0⟩ 10).records
      = [⟨"1", "raw", "pass", "RAW_FETCHED", ""⟩,
         ⟨"1", "window", "pass", "WINDOW_IN_RANGE", ""⟩]
    ∧ (pollAccount (fun _ => some 5) "a" "v" ⟨none, [⟨"1", "c", ""⟩]⟩
        ⟨Tier.A, 0, none, 0, some 0⟩ 10).items = [] := by
  exact ⟨by decide, by decide⟩

/-- C8 (amended): every candidate yields exactly one `raw` record and
exactly one `window` record — a pass when in window, otherwise a drop
carrying the raw timestamp string as the matched rule — and every windowed
item with non-empty text yields exactly one importance record, a drop
record whenever it does not reach the output, and exactly one noise record
when it does; only a windowed item with empty text is skipped with no
record. -/
theorem decision_audit_complete (pd : String → Option Timestamp)
    (lc now : Timestamp) (sn v : String) (tier : Tier) (t : Tweet) (htext : t.text ≠ "") :
    ((windowRecordsFor pd lc now t).countP (fun r => decide (r.stage = "raw")) = 1)
    ∧ ((windowRecordsFor pd lc now t).countP (fun r => decide (r.stage = "window")) = 1)
    ∧ (windowRecordsFor pd lc now t =
        if isInWindow (pd t.created_at) lc now then
          [⟨t.tweet_id, "raw", "pass", "RAW_FETCHED", ""⟩,
           ⟨t.tweet_id, "window", "pass", "WINDOW_IN_RANGE", ""⟩]
        else
          [⟨t.tweet_id, "raw", "pass", "RAW_FETCHED", ""⟩,
           ⟨t.tweet_id, "window", "drop", "WINDOW_OLD", t.created_at⟩])
    ∧ ((processWindowedTweet sn v tier t).1.countP (fun r => decide (r.stage = "importance")) = 1)
    ∧ ((processWindowedTweet sn v tier t).2 = none →
        ∃ r ∈ (processWindowedTweet sn v tier t).1, r.decision = "drop")
    ∧ ((processWindowedTweet sn v tier t).2.isSome = true →
        (processWindowedTweet sn v tier t).1.countP (fun r => decide (r.stage = "noise")) = 1) := by
  have hcases := detect_label_cases t.text v
  rcases hd : detectImportanceWithRule t.text v with ⟨imp, rule⟩
  rw [hd] at hcases
  simp only at hcases
  have hproc :
      ((processWindowedTweet sn v tier t).1.countP (fun r => decide (r.stage = "importance")) = 1)
      ∧ ((processWindowedTweet sn v tier t).2 = none →
          ∃ r ∈ (processWindowedTweet sn v tier t).1, r.decision = "drop")
      ∧ ((processWindowedTweet sn v tier t).2.isSome = true →
          (processWindowedTweet sn v tier t).1.countP (fun r => decide (r.stage = "noise")) = 1) := by
    unfold processWindowedTweet
    rw [if_neg htext, hd]
    simp only
    rcases hcases with h | h | h | h <;> subst h
    · simp
    · simp only [String.reduceEq, false_or, or_false, reduceIte]
      split <;> simp
    · simp only [String.reduceEq, false_or, or_false, reduceIte]
      split <;> simp
    · simp
  refine ⟨?_, ?_, rfl, hproc.1, hproc.2.1, hproc.2.2⟩
  · unfold windowRecordsFor
    split <;> simp
  · unfold windowRecordsFor
    split <;> simp

/-- Witness for C8 (amended) at a concrete noisy launch tweet. -/
theorem decision_audit_complete_witness :
    (processWindowedTweet "sn" "v" Tier.A ⟨"7", "c", "launch event"⟩).1.countP
      (fun r => decide (r.stage = "importance")) = 1 := by
  exact (decision_audit_complete (fun _ => none) 0 1 "sn" "v" Tier.A
    ⟨"7", "c", "launch event"⟩ (by decide)).2.2.2.1

/-- C9: when the daytime batch send fails, `run_once` falls back to
sending every staged item individually — each item gets its own push
record with its own result, every staged item is attempted regardless of
the outcomes of the items before it, and the pushed count is the number of
individually successful sends. -/
theorem batch_fallback_attempts_all (sendOne : NewsItem → Bool) (staged : List NewsItem) :
    ((dayPush false sendOne staged).2 =
      pushRecord (String.intercalate "," (staged.map (fun it => it.tweet_id)))
          "day_batch" false
        :: staged.map (fun it => pushRecord it.tweet_id "day_batch_fallback_single" (sendOne it)))
    ∧ (∀ it ∈ staged,
        pushRecord it.tweet_id "day_batch_fallback_single" (sendOne it)
          ∈ (dayPush false sendOne staged).2)
    ∧ ((dayPush false sendOne staged).1 = staged.countP sendOne) := by
  refine ⟨by simp [dayPush], fun it hit => ?_, by simp [dayPush]⟩
  simp only [dayPush, Bool.false_eq_true, if_false, List.mem_cons]
  exact Or.inr (List.mem_map.mpr ⟨it, hit, rfl⟩)

/-- Witness for C9: with the first item's individual send failing and the
second succeeding, both items are attempted and one push succeeds. -/
theorem batch_fallback_attempts_all_witness :
    pushRecord "2" "day_batch_fallback_single" true
      ∈ (dayPush false (fun it => decide (it.tweet_id = "2"))
          [⟨"s", "t", "u", "m", "v", "major", "a", "1", Tier.A, "r"⟩,
           ⟨"s", "t", "u", "m", "v", "major", "a", "2", Tier.A, "r"⟩]).2
    ∧ (dayPush false (fun it => decide (it.tweet_id = "2"))
        [⟨"s", "t", "u", "m", "v", "major", "a", "1", Tier.A, "r"⟩,
         ⟨"s", "t", "u", "m", "v", "major", "a", "2", Tier.A, "r"⟩]).1 = 1 := by
  have h := batch_fallback_attempts_all (fun it => decide (it.tweet_id = "2"))
    [⟨"s", "t", "u", "m", "v", "major", "a", "1", Tier.A, "r"⟩,
     ⟨"s", "t", "u", "m", "v", "major", "a", "2", Tier.A, "r"⟩]
  constructor
  · have hm := h.2.1 ⟨"s", "t", "u", "m", "v", "major", "a", "2", Tier.A, "r"⟩ (by decide)
    simpa using hm
  · rw [h.2.2]
    decide

/-- Helper: a staged result of `stageOne` is the processed item itself,
and its insert must have succeeded. -/
theorem stageOne_some (save : NewsItem → InsertOutcome) (it x : NewsItem)
    (h : (stageOne save it).1 = some x) : x = it ∧ saveIfNew (save it) = true := by
  unfold stageOne at h
  split at h
  · exact absurd h (by simp)
  · split at h
    · exact ⟨by injection h with h1; exact h1.symm, by assumption⟩
    · exact absurd h (by simp)

/-- C10: `save_if_new` returns `False` both on the uniqueness-constraint
violation and on any other exception raised during the insert (it is
total, so it never propagates), a transient storage failure is therefore
indistinguishable to `run_once` from a duplicate, and the item is excluded
from the staged notification list. -/
theorem storage_failure_as_duplicate (save : NewsItem → InsertOutcome)
    (it : NewsItem) (items : List NewsItem)
    (hfail : save it ≠ InsertOutcome.ok) :
    saveIfNew InsertOutcome.integrityError = false
    ∧ saveIfNew InsertOutcome.otherError = false
    ∧ saveIfNew (save it) = false
    ∧ stageOne save it = stageOne (fun _ => InsertOutcome.integrityError) it
    ∧ it ∉ stagedItems save items := by
  have hsave : saveIfNew (save it) = false := by
    rcases hs : save it with _ | _ | _
    · exact absurd hs hfail
    · rfl
    · rfl
  refine ⟨rfl, rfl, hsave, ?_, ?_⟩
  · unfold stageOne
    rw [hsave]
    rfl
  · intro hmem
    rcases List.mem_filterMap.mp hmem with ⟨a, _, ha⟩
    rcases stageOne_some save a it ha with ⟨rfl, hok⟩
    rw [hsave] at hok
    exact Bool.false_ne_true hok

/-- Witness for C10: a non-duplicate storage error excludes the item from
staging exactly like a duplicate would. -/
theorem storage_failure_as_duplicate_witness :
    saveIfNew InsertOutcome.otherError = false
    ∧ (⟨"s", "t", "u", "m", "v", "major", "a", "1", Tier.A, "r"⟩ : NewsItem)
        ∉ stagedItems (fun _ => InsertOutcome.otherError)
          [⟨"s", "t", "u", "m", "v", "major", "a", "1", Tier.A, "r"⟩] := by
  have h := storage_failure_as_duplicate (fun _ => InsertOutcome.otherError)
    ⟨"s", "t", "u", "m", "v", "major", "a", "1", Tier.A, "r"⟩
    [⟨"s", "t", "u", "m", "v", "major", "a", "1", Tier.A, "r"⟩]
    (by decide)
  exact ⟨h.2.1, h.2.2.2.2⟩

end AIMonitor
